import Mathlib

/-!
Verification development for the Vulkan barrier core of
`Graphics/GraphicsEngineVulkan/src/VulkanUtilities/VulkanCommandBuffer.cpp`
(namespace `VulkanUtilities`).

The file embeds, over `Nat` bit masks, the three entities of the excerpt:

* `PipelineStageFromAccessFlags` — the static helper that decomposes an
  access mask into single bits and unions the pipeline stages capable of
  each access;
* `VulkanCommandBuffer::TransitionImageLayout` — the barrier emitter: two
  switches over the old/new image layout fill the access masks of a
  `VkImageMemoryBarrier`, missing stage masks are derived from the access
  masks, and a single `vkCmdPipelineBarrier` command is recorded;
* `VulkanCommandBuffer::FlushBarriers` — the (empty) batching stub.

Machine integers (`VkAccessFlags`, `VkPipelineStageFlags`, 32-bit) are
embedded as `Nat`; the C complement `~y` of a 32-bit value is written
`4294967295 ^^^ y`, which agrees with the machine complement on all
values below `2^32`.
-/

/- Vulkan enumeration constants used by the excerpt (values from vulkan_core.h). -/

def VK_ACCESS_INDIRECT_COMMAND_READ_BIT : Nat := 1
def VK_ACCESS_INDEX_READ_BIT : Nat := 2
def VK_ACCESS_VERTEX_ATTRIBUTE_READ_BIT : Nat := 4
def VK_ACCESS_UNIFORM_READ_BIT : Nat := 8
def VK_ACCESS_INPUT_ATTACHMENT_READ_BIT : Nat := 16
def VK_ACCESS_SHADER_READ_BIT : Nat := 32
def VK_ACCESS_SHADER_WRITE_BIT : Nat := 64
def VK_ACCESS_COLOR_ATTACHMENT_READ_BIT : Nat := 128
def VK_ACCESS_COLOR_ATTACHMENT_WRITE_BIT : Nat := 256
def VK_ACCESS_DEPTH_STENCIL_ATTACHMENT_READ_BIT : Nat := 512
def VK_ACCESS_DEPTH_STENCIL_ATTACHMENT_WRITE_BIT : Nat := 1024
def VK_ACCESS_TRANSFER_READ_BIT : Nat := 2048
def VK_ACCESS_TRANSFER_WRITE_BIT : Nat := 4096
def VK_ACCESS_HOST_READ_BIT : Nat := 8192
def VK_ACCESS_HOST_WRITE_BIT : Nat := 16384
def VK_ACCESS_MEMORY_READ_BIT : Nat := 32768
def VK_ACCESS_MEMORY_WRITE_BIT : Nat := 65536

def VK_PIPELINE_STAGE_DRAW_INDIRECT_BIT : Nat := 2
def VK_PIPELINE_STAGE_VERTEX_INPUT_BIT : Nat := 4
def VK_PIPELINE_STAGE_VERTEX_SHADER_BIT : Nat := 8
def VK_PIPELINE_STAGE_TESSELLATION_CONTROL_SHADER_BIT : Nat := 16
def VK_PIPELINE_STAGE_TESSELLATION_EVALUATION_SHADER_BIT : Nat := 32
def VK_PIPELINE_STAGE_GEOMETRY_SHADER_BIT : Nat := 64
def VK_PIPELINE_STAGE_FRAGMENT_SHADER_BIT : Nat := 128
def VK_PIPELINE_STAGE_EARLY_FRAGMENT_TESTS_BIT : Nat := 256
def VK_PIPELINE_STAGE_LATE_FRAGMENT_TESTS_BIT : Nat := 512
def VK_PIPELINE_STAGE_COLOR_ATTACHMENT_OUTPUT_BIT : Nat := 1024
def VK_PIPELINE_STAGE_COMPUTE_SHADER_BIT : Nat := 2048
def VK_PIPELINE_STAGE_TRANSFER_BIT : Nat := 4096
def VK_PIPELINE_STAGE_HOST_BIT : Nat := 16384

/-- The constant `ALL_GRAPHICS_SHADER_STAGES_BITS` from
`PipelineStageFromAccessFlags` (vertex, tessellation control/evaluation,
geometry and fragment shader stages). -/
def ALL_GRAPHICS_SHADER_STAGES_BITS : Nat :=
  VK_PIPELINE_STAGE_VERTEX_SHADER_BIT |||
  VK_PIPELINE_STAGE_TESSELLATION_CONTROL_SHADER_BIT |||
  VK_PIPELINE_STAGE_TESSELLATION_EVALUATION_SHADER_BIT |||
  VK_PIPELINE_STAGE_GEOMETRY_SHADER_BIT |||
  VK_PIPELINE_STAGE_FRAGMENT_SHADER_BIT

/-- Modelled from the spec: the `UNEXPECTED` macro comes from the debug
utilities header, which is not part of the excerpt; per section 7 of the
spec it marks a fatal, unrecoverable contract violation, so we model a
computation that triggers it as aborted, returning `none`. -/
def contractViolation {α : Type} : Option α := none

/-- The `switch (AccessFlag)` statement of `PipelineStageFromAccessFlags`:
the pipeline stages contributed by one single-bit access flag, or a fatal
contract violation for an unknown flag (the `default:` branch). -/
def stagesForSingleAccess (AccessFlag : Nat) : Option Nat :=
  if AccessFlag = VK_ACCESS_INDIRECT_COMMAND_READ_BIT then
    some VK_PIPELINE_STAGE_DRAW_INDIRECT_BIT
  else if AccessFlag = VK_ACCESS_INDEX_READ_BIT then
    some VK_PIPELINE_STAGE_VERTEX_INPUT_BIT
  else if AccessFlag = VK_ACCESS_VERTEX_ATTRIBUTE_READ_BIT then
    some VK_PIPELINE_STAGE_VERTEX_INPUT_BIT
  else if AccessFlag = VK_ACCESS_UNIFORM_READ_BIT then
    some (ALL_GRAPHICS_SHADER_STAGES_BITS ||| VK_PIPELINE_STAGE_COMPUTE_SHADER_BIT)
  else if AccessFlag = VK_ACCESS_INPUT_ATTACHMENT_READ_BIT then
    some VK_PIPELINE_STAGE_FRAGMENT_SHADER_BIT
  else if AccessFlag = VK_ACCESS_SHADER_READ_BIT then
    some (ALL_GRAPHICS_SHADER_STAGES_BITS ||| VK_PIPELINE_STAGE_COMPUTE_SHADER_BIT)
  else if AccessFlag = VK_ACCESS_SHADER_WRITE_BIT then
    some (ALL_GRAPHICS_SHADER_STAGES_BITS ||| VK_PIPELINE_STAGE_COMPUTE_SHADER_BIT)
  else if AccessFlag = VK_ACCESS_COLOR_ATTACHMENT_READ_BIT then
    some VK_PIPELINE_STAGE_COLOR_ATTACHMENT_OUTPUT_BIT
  else if AccessFlag = VK_ACCESS_COLOR_ATTACHMENT_WRITE_BIT then
    some VK_PIPELINE_STAGE_COLOR_ATTACHMENT_OUTPUT_BIT
  else if AccessFlag = VK_ACCESS_DEPTH_STENCIL_ATTACHMENT_READ_BIT then
    some (VK_PIPELINE_STAGE_EARLY_FRAGMENT_TESTS_BIT ||| VK_PIPELINE_STAGE_LATE_FRAGMENT_TESTS_BIT)
  else if AccessFlag = VK_ACCESS_DEPTH_STENCIL_ATTACHMENT_WRITE_BIT then
    some (VK_PIPELINE_STAGE_EARLY_FRAGMENT_TESTS_BIT ||| VK_PIPELINE_STAGE_LATE_FRAGMENT_TESTS_BIT)
  else if AccessFlag = VK_ACCESS_TRANSFER_READ_BIT then
    some VK_PIPELINE_STAGE_TRANSFER_BIT
  else if AccessFlag = VK_ACCESS_TRANSFER_WRITE_BIT then
    some VK_PIPELINE_STAGE_TRANSFER_BIT
  else if AccessFlag = VK_ACCESS_HOST_READ_BIT then
    some VK_PIPELINE_STAGE_HOST_BIT
  else if AccessFlag = VK_ACCESS_HOST_WRITE_BIT then
    some VK_PIPELINE_STAGE_HOST_BIT
  else if AccessFlag = VK_ACCESS_MEMORY_READ_BIT then
    some 0
  else if AccessFlag = VK_ACCESS_MEMORY_WRITE_BIT then
    some 0
  else
    contractViolation

theorem stagesForSingleAccess_eq_none {a : Nat} (hc : ∀ j, j < 17 → a ≠ 2 ^ j) :
    stagesForSingleAccess a = none := by
  unfold stagesForSingleAccess
  rw [if_neg (fun he => hc 0 (by omega) (he.trans (by decide)))]
  rw [if_neg (fun he => hc 1 (by omega) (he.trans (by decide)))]
  rw [if_neg (fun he => hc 2 (by omega) (he.trans (by decide)))]
  rw [if_neg (fun he => hc 3 (by omega) (he.trans (by decide)))]
  rw [if_neg (fun he => hc 4 (by omega) (he.trans (by decide)))]
  rw [if_neg (fun he => hc 5 (by omega) (he.trans (by decide)))]
  rw [if_neg (fun he => hc 6 (by omega) (he.trans (by decide)))]
  rw [if_neg (fun he => hc 7 (by omega) (he.trans (by decide)))]
  rw [if_neg (fun he => hc 8 (by omega) (he.trans (by decide)))]
  rw [if_neg (fun he => hc 9 (by omega) (he.trans (by decide)))]
  rw [if_neg (fun he => hc 10 (by omega) (he.trans (by decide)))]
  rw [if_neg (fun he => hc 11 (by omega) (he.trans (by decide)))]
  rw [if_neg (fun he => hc 12 (by omega) (he.trans (by decide)))]
  rw [if_neg (fun he => hc 13 (by omega) (he.trans (by decide)))]
  rw [if_neg (fun he => hc 14 (by omega) (he.trans (by decide)))]
  rw [if_neg (fun he => hc 15 (by omega) (he.trans (by decide)))]
  rw [if_neg (fun he => hc 16 (by omega) (he.trans (by decide)))]
  rfl

theorem stagesForSingleAccess_isPow {a s : Nat}
    (h : stagesForSingleAccess a = some s) : ∃ j, j < 17 ∧ a = 2 ^ j := by
  by_contra hc
  push_neg at hc
  rw [stagesForSingleAccess_eq_none hc] at h
  exact Option.noConfusion h

theorem and_xor_mask_lt {x j : Nat} (hj : j < 32) (hbit : x.testBit j = true) :
    x &&& (4294967295 ^^^ 2 ^ j) < x := by
  have hle : x &&& (4294967295 ^^^ 2 ^ j) ≤ x := Nat.and_le_left
  have hmask : (4294967295 : Nat) = 2 ^ 32 - 1 := by decide
  have hne : x &&& (4294967295 ^^^ 2 ^ j) ≠ x := by
    intro he
    have hb : (x &&& (4294967295 ^^^ 2 ^ j)).testBit j = x.testBit j := by rw [he]
    rw [Nat.testBit_and, Nat.testBit_xor, hmask, Nat.testBit_two_pow_sub_one,
      Nat.testBit_two_pow_self, hbit] at hb
    simp [hj] at hb
  omega

/-- The `while (AccessFlags != 0)` loop of `PipelineStageFromAccessFlags`:
`AccessFlag = AccessFlags & ~(AccessFlags - 1)` isolates the lowest set
bit, which is then looked up in the stage table and cleared from the
remaining mask (`AccessFlags &= ~AccessFlag`); `Stages` accumulates the
contributed pipeline stages. -/
def pipelineStageLoop (AccessFlags Stages : Nat) : Option Nat :=
  if AccessFlags = 0 then
    some Stages
  else
    match h : stagesForSingleAccess (AccessFlags &&& (4294967295 ^^^ (AccessFlags - 1))) with
    | none => none
    | some s =>
      pipelineStageLoop
        (AccessFlags &&& (4294967295 ^^^ (AccessFlags &&& (4294967295 ^^^ (AccessFlags - 1)))))
        (Stages ||| s)
termination_by AccessFlags
decreasing_by
  obtain ⟨j, hj, he⟩ := stagesForSingleAccess_isPow h
  rw [he]
  have hbit : AccessFlags.testBit j = true := by
    have hb := congrArg (fun t => t.testBit j) he
    simp only [Nat.testBit_and, Nat.testBit_two_pow_self] at hb
    exact (Bool.and_eq_true_iff.mp hb).1
  exact and_xor_mask_lt (by omega) hbit

/-- `static VkPipelineStageFlags PipelineStageFromAccessFlags(VkAccessFlags)`:
starts the loop with `Stages = 0`. -/
def PipelineStageFromAccessFlags (AccessFlags : Nat) : Option Nat :=
  pipelineStageLoop AccessFlags 0

theorem pipelineStageLoop_zero (s : Nat) : pipelineStageLoop 0 s = some s := by
  rw [pipelineStageLoop.eq_def]
  rfl

theorem pipelineStageLoop_step_none {x : Nat} (s : Nat) (hx : x ≠ 0)
    (hm : stagesForSingleAccess (x &&& (4294967295 ^^^ (x - 1))) = none) :
    pipelineStageLoop x s = none := by
  rw [pipelineStageLoop.eq_def]
  simp only [hx, if_false]
  split
  · rfl
  · rename_i s' heq
    rw [hm] at heq
    exact Option.noConfusion heq

theorem pipelineStageLoop_step_some {x c : Nat} (s : Nat) (hx : x ≠ 0)
    (hm : stagesForSingleAccess (x &&& (4294967295 ^^^ (x - 1))) = some c) :
    pipelineStageLoop x s =
      pipelineStageLoop (x &&& (4294967295 ^^^ (x &&& (4294967295 ^^^ (x - 1))))) (s ||| c) := by
  rw [pipelineStageLoop.eq_def]
  simp only [hx, if_false]
  split
  · rename_i heq
    rw [hm] at heq
    exact Option.noConfusion heq
  · rename_i s' heq
    rw [hm] at heq
    cases heq
    rfl

theorem exists_odd_factor : ∀ x : Nat, 0 < x → ∃ k m, x = 2 ^ (k + 1) * m + 2 ^ k := by
  intro x
  induction x using Nat.strong_induction_on with
  | _ x ih =>
    intro hx
    rcases Nat.even_or_odd x with hev | hod
    · obtain ⟨y, hy⟩ := hev
      have hy2 : x = 2 * y := by omega
      obtain ⟨k, m, hkm⟩ := ih y (by omega) (by omega)
      exact ⟨k + 1, m, by rw [hy2, hkm]; ring⟩
    · obtain ⟨y, hy⟩ := hod
      exact ⟨0, y, by rw [hy]; ring⟩

/-- Characterization of the two bit tricks of the loop body on 32-bit
values: `x & ~(x-1)` isolates the lowest set bit `2^j` of `x`, and
`x & ~2^j` then clears it, leaving a value divisible by `2^(j+1)`. -/
theorem lsb_spec {x : Nat} (hx : 0 < x) (hx32 : x < 4294967296) :
    ∃ j, j < 32 ∧ x.testBit j = true ∧ (∀ i, i < j → x.testBit i = false) ∧
      2 ^ j ≤ x ∧
      x &&& (4294967295 ^^^ (x - 1)) = 2 ^ j ∧
      x &&& (4294967295 ^^^ 2 ^ j) = x - 2 ^ j ∧
      (x - 2 ^ j) % 2 ^ (j + 1) = 0 := by
  obtain ⟨k, m, he⟩ := exists_odd_factor x hx
  have hkpos : (0:Nat) < 2 ^ k := Nat.two_pow_pos k
  have hk1pos : (0:Nat) < 2 ^ (k + 1) := Nat.two_pow_pos (k + 1)
  have hblt : (2:Nat) ^ k < 2 ^ (k + 1) := by
    have h2 : (2:Nat) ^ (k + 1) = 2 ^ k * 2 := by rw [Nat.pow_succ]
    omega
  have hle : 2 ^ k ≤ x := he ▸ Nat.le_add_left (2 ^ k) (2 ^ (k + 1) * m)
  have hk32 : k < 32 := by
    by_contra hcon
    have h32 : (2:Nat) ^ 32 ≤ 2 ^ k := Nat.pow_le_pow_right (by norm_num) (by omega)
    have h32e : (2:Nat) ^ 32 = 4294967296 := by norm_num
    omega
  have hx1eq : x - 1 = 2 ^ (k + 1) * m + (2 ^ k - 1) := by
    rw [he, Nat.add_sub_assoc hkpos]
  have hx2eq : x - 2 ^ k = 2 ^ (k + 1) * m := by
    rw [he, Nat.add_sub_cancel]
  have hsub1lt : 2 ^ k - 1 < 2 ^ (k + 1) := by omega
  have htbx : ∀ j, x.testBit j =
      if j < k + 1 then decide (k = j) else m.testBit (j - (k + 1)) := by
    intro j
    rw [he, Nat.testBit_mul_pow_two_add m hblt j]
    simp only [Nat.testBit_two_pow]
  have htbx1 : ∀ j, (x - 1).testBit j =
      if j < k + 1 then decide (j < k) else m.testBit (j - (k + 1)) := by
    intro j
    rw [hx1eq, Nat.testBit_mul_pow_two_add m hsub1lt j]
    simp only [Nat.testBit_two_pow_sub_one]
  have htbx2 : ∀ j, (2 ^ (k + 1) * m).testBit j =
      if j < k + 1 then false else m.testBit (j - (k + 1)) := by
    intro j
    have h0 : (0:Nat) < 2 ^ (k + 1) := hk1pos
    have := Nat.testBit_mul_pow_two_add m h0 j
    simpa using this
  have hbig : ∀ i, 32 ≤ i → x.testBit i = false := by
    intro i hi
    exact Nat.testBit_lt_two_pow
      (lt_of_lt_of_le (by omega : x < 2 ^ 32) (Nat.pow_le_pow_right (by norm_num) hi))
  have hMeq : (4294967295 : Nat) = 2 ^ 32 - 1 := by norm_num
  refine ⟨k, hk32, ?_, ?_, hle, ?_, ?_, ?_⟩
  · rw [htbx k]
    simp
  · intro i hik
    have h1 : i < k + 1 := by omega
    rw [htbx i]
    have hkne : ¬ (k = i) := by omega
    simp [h1, hkne]
  · apply Nat.eq_of_testBit_eq
    intro i
    rw [Nat.testBit_and, Nat.testBit_xor, hMeq, Nat.testBit_two_pow_sub_one, htbx i,
      htbx1 i, Nat.testBit_two_pow]
    by_cases hi32 : i < 32
    · rcases Nat.lt_trichotomy i k with hik | hik | hik
      · have h1 : i < k + 1 := by omega
        have hkne : ¬ (k = i) := by omega
        simp [h1, hkne]
      · subst hik
        simp [hi32]
      · have h1 : ¬ (i < k + 1) := by omega
        have hkne : ¬ (k = i) := by omega
        cases hmb : m.testBit (i - (k + 1)) <;> simp [h1, hmb, hi32, hkne]
    · have h1 : ¬ (i < k + 1) := by omega
      have hmb : m.testBit (i - (k + 1)) = false := by
        have hxi := htbx i
        rw [if_neg h1] at hxi
        rw [← hxi]
        exact hbig i (by omega)
      have hkne : ¬ (k = i) := by omega
      simp [h1, hmb, hkne]
  · apply Nat.eq_of_testBit_eq
    intro i
    rw [hx2eq, Nat.testBit_and, Nat.testBit_xor, hMeq, Nat.testBit_two_pow_sub_one,
      htbx i, Nat.testBit_two_pow, htbx2 i]
    by_cases hi32 : i < 32
    · rcases Nat.lt_trichotomy i k with hik | hik | hik
      · have h1 : i < k + 1 := by omega
        have hkne : ¬ (k = i) := by omega
        simp [h1, hkne]
      · subst hik
        simp [hi32]
      · have h1 : ¬ (i < k + 1) := by omega
        have hkne : ¬ (k = i) := by omega
        simp [h1, hi32, hkne]
    · have h1 : ¬ (i < k + 1) := by omega
      have hmb : m.testBit (i - (k + 1)) = false := by
        have hxi := htbx i
        rw [if_neg h1] at hxi
        rw [← hxi]
        exact hbig i (by omega)
      have hkne : ¬ (k = i) := by omega
      simp [h1, hmb, hkne]
  · rw [hx2eq]
    exact Nat.mul_mod_right _ _

/-- The pipeline stages the table of `PipelineStageFromAccessFlags`
assigns to the single access bit `2^j`. -/
def singleBitStages (j : Nat) : Nat := (stagesForSingleAccess (2 ^ j)).getD 0

/-- Reference reformulation of the loop of `PipelineStageFromAccessFlags`
as a fold over the 17 defined access-bit positions: the union of the
per-bit stage contributions of every set bit of `x`. -/
def accessWordStages (x : Nat) : Nat :=
  (List.range 17).foldr
    (fun j acc => (if x.testBit j then singleBitStages j else 0) ||| acc) 0

theorem foldr_lor_hom (F F1 F2 : Nat → Nat) (hF : ∀ j, F j = F1 j ||| F2 j) :
    ∀ l : List Nat,
      l.foldr (fun j acc => F j ||| acc) 0 =
        l.foldr (fun j acc => F1 j ||| acc) 0 ||| l.foldr (fun j acc => F2 j ||| acc) 0 := by
  intro l
  induction l with
  | nil => simp
  | cons a t ih =>
    simp only [List.foldr_cons]
    rw [hF a, ih]
    rw [Nat.lor_assoc, Nat.lor_assoc]
    congr 1
    rw [← Nat.lor_assoc, Nat.lor_comm (F2 a), Nat.lor_assoc]

theorem accessWordStages_or (a b : Nat) :
    accessWordStages (a ||| b) = accessWordStages a ||| accessWordStages b := by
  unfold accessWordStages
  apply foldr_lor_hom
  intro j
  rw [Nat.testBit_or]
  cases ha : a.testBit j <;> cases hb : b.testBit j <;>
    simp [Nat.or_zero, Nat.zero_or, Nat.or_self]

theorem accessWordStages_single {j : Nat} (hj : j < 17) :
    accessWordStages (2 ^ j) = singleBitStages j := by
  interval_cases j <;> decide

theorem stagesForSingleAccess_known {j : Nat} (hj : j < 17) :
    stagesForSingleAccess (2 ^ j) = some (singleBitStages j) := by
  interval_cases j <;> decide

theorem mask32_eq : (4294967295 : Nat) = 2 ^ 32 - 1 := by norm_num

/-- On every access mask over the 17 defined access bits, the loop of
`PipelineStageFromAccessFlags` computes the bitwise fold
`accessWordStages`, unioned into the accumulator. -/
theorem pipelineStageLoop_eq :
    ∀ x, x < 131072 → ∀ s, pipelineStageLoop x s = some (s ||| accessWordStages x) := by
  intro x
  induction x using Nat.strong_induction_on with
  | _ x ih =>
    intro hx s
    by_cases hz : x = 0
    · subst hz
      rw [pipelineStageLoop_zero]
      have h0 : accessWordStages 0 = 0 := by decide
      rw [h0, Nat.or_zero]
    · obtain ⟨j, hj32, hbit, hlow, hle, hA, hB, hmodj⟩ :=
        lsb_spec (Nat.pos_of_ne_zero hz) (by omega)
      have hj17 : j < 17 := by
        by_contra hc
        have hge : (131072:Nat) ≤ 2 ^ j := by
          calc (131072:Nat) = 2 ^ 17 := by norm_num
          _ ≤ 2 ^ j := Nat.pow_le_pow_right (by norm_num) (by omega)
        omega
      have hm : stagesForSingleAccess (x &&& (4294967295 ^^^ (x - 1)))
          = some (singleBitStages j) := by
        rw [hA]
        exact stagesForSingleAccess_known hj17
      have hpow : (0:Nat) < 2 ^ j := Nat.two_pow_pos j
      rw [pipelineStageLoop_step_some s hz hm, hA, hB,
        ih (x - 2 ^ j) (by omega) (by omega) (s ||| singleBitStages j)]
      have hxdecomp : x = 2 ^ j ||| (x - 2 ^ j) := by
        have hx' : x - 2 ^ j = x &&& (4294967295 ^^^ 2 ^ j) := hB.symm
        apply Nat.eq_of_testBit_eq
        intro i
        rw [Nat.testBit_or, hx', Nat.testBit_and, Nat.testBit_xor, mask32_eq,
          Nat.testBit_two_pow_sub_one, Nat.testBit_two_pow]
        by_cases hij : j = i
        · subst hij
          simp [hbit]
        · by_cases hi32 : i < 32
          · simp [hij, hi32]
          · have hxf : x.testBit i = false := Nat.testBit_lt_two_pow
              (lt_of_lt_of_le (by omega : x < 2 ^ 32)
                (Nat.pow_le_pow_right (by norm_num) (by omega)))
            simp [hij, hi32, hxf]
      have hsplit : accessWordStages x
          = singleBitStages j ||| accessWordStages (x - 2 ^ j) := by
        conv_lhs => rw [hxdecomp]
        rw [accessWordStages_or, accessWordStages_single hj17]
      rw [hsplit, Nat.lor_assoc]

/-- Concrete-evaluation form of the loop: on a mask of defined access
bits, `PipelineStageFromAccessFlags` returns the bitwise fold. -/
theorem PipelineStageFromAccessFlags_eq (x : Nat) (hx : x < 131072) :
    PipelineStageFromAccessFlags x = some (accessWordStages x) := by
  unfold PipelineStageFromAccessFlags
  rw [pipelineStageLoop_eq x hx 0, Nat.zero_or]

/-- Fuel-indexed variant of the loop of `PipelineStageFromAccessFlags`:
`fuel` bounds the number of loop iterations that may still run; `none`
means the budget was exhausted before the loop returned, `some r` that
the loop finished within the budget with result `r`. -/
def pipelineStageLoopFuel (fuel AccessFlags Stages : Nat) : Option (Option Nat) :=
  if AccessFlags = 0 then some (some Stages)
  else
    match fuel with
    | 0 => none
    | fuel' + 1 =>
      match stagesForSingleAccess (AccessFlags &&& (4294967295 ^^^ (AccessFlags - 1))) with
      | none => some none
      | some s =>
        pipelineStageLoopFuel fuel'
          (AccessFlags &&& (4294967295 ^^^ (AccessFlags &&& (4294967295 ^^^ (AccessFlags - 1)))))
          (Stages ||| s)

theorem testBit_eq_false_of_mod_two_pow {x c i : Nat}
    (hmod : x % 2 ^ c = 0) (hi : i < c) : x.testBit i = false := by
  have h := Nat.testBit_mod_two_pow x c i
  rw [hmod, Nat.zero_testBit] at h
  cases hxb : x.testBit i with
  | false => rfl
  | true =>
    rw [hxb] at h
    simp [hi] at h

theorem pipelineStageLoopFuel_adequate :
    ∀ fuel x s, x < 4294967296 → x % 2 ^ (32 - fuel) = 0 →
      pipelineStageLoopFuel fuel x s = some (pipelineStageLoop x s) := by
  intro fuel
  induction fuel with
  | zero =>
    intro x s hx32 hmod
    have h32 : (2:Nat) ^ (32 - 0) = 4294967296 := by norm_num
    have hx0 : x = 0 := by omega
    subst hx0
    rw [pipelineStageLoop_zero, pipelineStageLoopFuel]
    rfl
  | succ fuel ih =>
    intro x s hx32 hmod
    by_cases hz : x = 0
    · subst hz
      rw [pipelineStageLoop_zero, pipelineStageLoopFuel]
      rfl
    · obtain ⟨j, hj32, hbit, hlow, hle, hA, hB, hmodj⟩ :=
        lsb_spec (Nat.pos_of_ne_zero hz) hx32
      have hjge : 32 - (fuel + 1) ≤ j := by
        by_contra hc
        push_neg at hc
        have hf : x.testBit j = false := testBit_eq_false_of_mod_two_pow hmod hc
        rw [hbit] at hf
        exact Bool.noConfusion hf
      rw [pipelineStageLoopFuel]
      simp only [hz, if_false]
      cases hsm : stagesForSingleAccess (x &&& (4294967295 ^^^ (x - 1))) with
      | none =>
        rw [pipelineStageLoop_step_none s hz hsm]
      | some c =>
        rw [pipelineStageLoop_step_some s hz hsm, hA, hB]
        apply ih (x - 2 ^ j) (s ||| c) (by omega)
        have hdvd1 : (2:Nat) ^ (j + 1) ∣ (x - 2 ^ j) :=
          Nat.dvd_iff_mod_eq_zero.mpr hmodj
        have hdvd2 : (2:Nat) ^ (32 - fuel) ∣ 2 ^ (j + 1) :=
          Nat.pow_dvd_pow 2 (by omega)
        exact Nat.dvd_iff_mod_eq_zero.mp (hdvd2.trans hdvd1)

def VK_IMAGE_LAYOUT_UNDEFINED : Nat := 0
def VK_IMAGE_LAYOUT_GENERAL : Nat := 1
def VK_IMAGE_LAYOUT_COLOR_ATTACHMENT_OPTIMAL : Nat := 2
def VK_IMAGE_LAYOUT_DEPTH_STENCIL_ATTACHMENT_OPTIMAL : Nat := 3
def VK_IMAGE_LAYOUT_DEPTH_STENCIL_READ_ONLY_OPTIMAL : Nat := 4
def VK_IMAGE_LAYOUT_SHADER_READ_ONLY_OPTIMAL : Nat := 5
def VK_IMAGE_LAYOUT_TRANSFER_SRC_OPTIMAL : Nat := 6
def VK_IMAGE_LAYOUT_TRANSFER_DST_OPTIMAL : Nat := 7
def VK_IMAGE_LAYOUT_PREINITIALIZED : Nat := 8
def VK_IMAGE_LAYOUT_DEPTH_READ_ONLY_STENCIL_ATTACHMENT_OPTIMAL : Nat := 1000117000
def VK_IMAGE_LAYOUT_DEPTH_ATTACHMENT_STENCIL_READ_ONLY_OPTIMAL : Nat := 1000117001
def VK_IMAGE_LAYOUT_PRESENT_SRC_KHR : Nat := 1000001002
def VK_QUEUE_FAMILY_IGNORED : Nat := 4294967295
def VK_STRUCTURE_TYPE_IMAGE_MEMORY_BARRIER : Nat := 45

/-- `VkImageSubresourceRange` (aspect mask plus mip/array bounds). -/
structure VkImageSubresourceRange where
  aspectMask : Nat
  baseMipLevel : Nat
  levelCount : Nat
  baseArrayLayer : Nat
  layerCount : Nat
deriving DecidableEq

/-- `VkImageMemoryBarrier` (the fields assigned by the source; handles
such as `image` and the `pNext` pointer are embedded as `Nat`). -/
structure VkImageMemoryBarrier where
  sType : Nat
  pNext : Nat
  srcAccessMask : Nat
  dstAccessMask : Nat
  oldLayout : Nat
  newLayout : Nat
  srcQueueFamilyIndex : Nat
  dstQueueFamilyIndex : Nat
  image : Nat
  subresourceRange : VkImageSubresourceRange
deriving DecidableEq

/-- One recorded `vkCmdPipelineBarrier` command: the arguments the source
passes to the driver call. -/
structure PipelineBarrierCmd where
  srcStageMask : Nat
  dstStageMask : Nat
  dependencyFlags : Nat
  memoryBarrierCount : Nat
  bufferMemoryBarrierCount : Nat
  imageMemoryBarrierCount : Nat
  imageMemoryBarriers : List VkImageMemoryBarrier
deriving DecidableEq

/-- `vkCmdPipelineBarrier`, modelled as appending one recorded command to
the command buffer's list of previously recorded commands. -/
def vkCmdPipelineBarrier (CmdBufferCmds : List PipelineBarrierCmd)
    (SrcStages DestStages DependencyFlags MemoryBarrierCount
      BufferMemoryBarrierCount ImageMemoryBarrierCount : Nat)
    (ImageMemoryBarriers : List VkImageMemoryBarrier) : List PipelineBarrierCmd :=
  CmdBufferCmds ++
    [{ srcStageMask := SrcStages
       dstStageMask := DestStages
       dependencyFlags := DependencyFlags
       memoryBarrierCount := MemoryBarrierCount
       bufferMemoryBarrierCount := BufferMemoryBarrierCount
       imageMemoryBarrierCount := ImageMemoryBarrierCount
       imageMemoryBarriers := ImageMemoryBarriers }]

/-- Lines 157-168 of the source: the `VkImageMemoryBarrier` local is
zero-initialized (`= {}`), its fixed fields are assigned, the aspect mask
argument is copied into the subresource range, and then the whole
subresource range is overwritten with `SubresRange` (so the `AspectMask`
argument has no effect on the final value). -/
def mkInitialBarrier (Image AspectMask OldLayout NewLayout : Nat)
    (SubresRange : VkImageSubresourceRange) : VkImageMemoryBarrier :=
  let ImgBarrier : VkImageMemoryBarrier :=
    { sType := VK_STRUCTURE_TYPE_IMAGE_MEMORY_BARRIER
      pNext := 0
      srcAccessMask := 0
      dstAccessMask := 0
      oldLayout := OldLayout
      newLayout := NewLayout
      srcQueueFamilyIndex := VK_QUEUE_FAMILY_IGNORED
      dstQueueFamilyIndex := VK_QUEUE_FAMILY_IGNORED
      image := Image
      subresourceRange :=
        { aspectMask := 0, baseMipLevel := 0, levelCount := 0,
          baseArrayLayer := 0, layerCount := 0 } }
  let ImgBarrier :=
    { ImgBarrier with subresourceRange :=
        { ImgBarrier.subresourceRange with aspectMask := AspectMask } }
  { ImgBarrier with subresourceRange := SubresRange }

/-- The `switch (OldLayout)` of `TransitionImageLayout` (lines 170-236):
fills `srcAccessMask` from the old layout; the `VK_IMAGE_LAYOUT_GENERAL`
and `default:` branches hit `UNEXPECTED` (fatal). -/
def applyOldLayoutSwitch (b : VkImageMemoryBarrier) (OldLayout : Nat) :
    Option VkImageMemoryBarrier :=
  if OldLayout = VK_IMAGE_LAYOUT_UNDEFINED then
    some b
  else if OldLayout = VK_IMAGE_LAYOUT_GENERAL then
    contractViolation
  else if OldLayout = VK_IMAGE_LAYOUT_COLOR_ATTACHMENT_OPTIMAL then
    some { b with srcAccessMask := VK_ACCESS_COLOR_ATTACHMENT_WRITE_BIT }
  else if OldLayout = VK_IMAGE_LAYOUT_DEPTH_STENCIL_ATTACHMENT_OPTIMAL then
    some { b with srcAccessMask := VK_ACCESS_DEPTH_STENCIL_ATTACHMENT_WRITE_BIT }
  else if OldLayout = VK_IMAGE_LAYOUT_DEPTH_STENCIL_READ_ONLY_OPTIMAL then
    some { b with srcAccessMask := VK_ACCESS_DEPTH_STENCIL_ATTACHMENT_READ_BIT }
  else if OldLayout = VK_IMAGE_LAYOUT_SHADER_READ_ONLY_OPTIMAL then
    some { b with srcAccessMask := VK_ACCESS_SHADER_READ_BIT }
  else if OldLayout = VK_IMAGE_LAYOUT_TRANSFER_SRC_OPTIMAL then
    some { b with srcAccessMask := VK_ACCESS_TRANSFER_READ_BIT }
  else if OldLayout = VK_IMAGE_LAYOUT_TRANSFER_DST_OPTIMAL then
    some { b with srcAccessMask := VK_ACCESS_TRANSFER_WRITE_BIT }
  else if OldLayout = VK_IMAGE_LAYOUT_PREINITIALIZED then
    some { b with srcAccessMask := VK_ACCESS_HOST_WRITE_BIT }
  else if OldLayout = VK_IMAGE_LAYOUT_DEPTH_READ_ONLY_STENCIL_ATTACHMENT_OPTIMAL then
    some { b with srcAccessMask := VK_ACCESS_DEPTH_STENCIL_ATTACHMENT_READ_BIT }
  else if OldLayout = VK_IMAGE_LAYOUT_DEPTH_ATTACHMENT_STENCIL_READ_ONLY_OPTIMAL then
    some { b with srcAccessMask := VK_ACCESS_DEPTH_STENCIL_ATTACHMENT_READ_BIT }
  else if OldLayout = VK_IMAGE_LAYOUT_PRESENT_SRC_KHR then
    some { b with srcAccessMask := VK_ACCESS_MEMORY_READ_BIT }
  else
    contractViolation

/-- The `switch (NewLayout)` of `TransitionImageLayout` (lines 239-296):
fills `dstAccessMask` from the new layout; the undefined, general and
preinitialized branches hit `UNEXPECTED` (fatal). In the
`VK_IMAGE_LAYOUT_DEPTH_STENCIL_READ_ONLY_OPTIMAL` case the source
assigns `ImgBarrier.srcAccessMask` (line 260), not `dstAccessMask`; the
embedding reproduces that assignment. -/
def applyNewLayoutSwitch (b : VkImageMemoryBarrier) (NewLayout : Nat) :
    Option VkImageMemoryBarrier :=
  if NewLayout = VK_IMAGE_LAYOUT_UNDEFINED then
    contractViolation
  else if NewLayout = VK_IMAGE_LAYOUT_GENERAL then
    contractViolation
  else if NewLayout = VK_IMAGE_LAYOUT_COLOR_ATTACHMENT_OPTIMAL then
    some { b with dstAccessMask := VK_ACCESS_COLOR_ATTACHMENT_WRITE_BIT }
  else if NewLayout = VK_IMAGE_LAYOUT_DEPTH_STENCIL_ATTACHMENT_OPTIMAL then
    some { b with dstAccessMask := VK_ACCESS_DEPTH_STENCIL_ATTACHMENT_WRITE_BIT }
  else if NewLayout = VK_IMAGE_LAYOUT_DEPTH_STENCIL_READ_ONLY_OPTIMAL then
    some { b with srcAccessMask := VK_ACCESS_DEPTH_STENCIL_ATTACHMENT_READ_BIT }
  else if NewLayout = VK_IMAGE_LAYOUT_SHADER_READ_ONLY_OPTIMAL then
    some { b with dstAccessMask :=
      VK_ACCESS_SHADER_READ_BIT ||| VK_ACCESS_INPUT_ATTACHMENT_READ_BIT }
  else if NewLayout = VK_IMAGE_LAYOUT_TRANSFER_SRC_OPTIMAL then
    some { b with dstAccessMask := VK_ACCESS_TRANSFER_READ_BIT }
  else if NewLayout = VK_IMAGE_LAYOUT_TRANSFER_DST_OPTIMAL then
    some { b with dstAccessMask := VK_ACCESS_TRANSFER_WRITE_BIT }
  else if NewLayout = VK_IMAGE_LAYOUT_PREINITIALIZED then
    contractViolation
  else if NewLayout = VK_IMAGE_LAYOUT_DEPTH_READ_ONLY_STENCIL_ATTACHMENT_OPTIMAL then
    some { b with dstAccessMask := VK_ACCESS_DEPTH_STENCIL_ATTACHMENT_READ_BIT }
  else if NewLayout = VK_IMAGE_LAYOUT_DEPTH_ATTACHMENT_STENCIL_READ_ONLY_OPTIMAL then
    some { b with dstAccessMask := VK_ACCESS_DEPTH_STENCIL_ATTACHMENT_READ_BIT }
  else if NewLayout = VK_IMAGE_LAYOUT_PRESENT_SRC_KHR then
    some { b with dstAccessMask := VK_ACCESS_MEMORY_READ_BIT }
  else
    contractViolation

/-- `VulkanCommandBuffer::TransitionImageLayout` (lines 146-314),
parametrized by the access-to-stage mapper consulted when a stage hint
is zero (the source calls the fixed `PipelineStageFromAccessFlags`; the
parameter lets the development state that the mapper is not consulted
when both hints are supplied). The command buffer is modelled as the
list of commands recorded so far; `none` models a fatal contract
violation (`UNEXPECTED`, or a null `CmdBuffer` handle, modelled as 0). -/
def TransitionImageLayoutWith (mapper : Nat → Option Nat)
    (CmdBufferCmds : List PipelineBarrierCmd)
    (CmdBuffer Image AspectMask OldLayout NewLayout : Nat)
    (SubresRange : VkImageSubresourceRange)
    (SrcStages DestStages : Nat) : Option (List PipelineBarrierCmd) :=
  if CmdBuffer = 0 then contractViolation
  else
    match applyOldLayoutSwitch
        (mkInitialBarrier Image AspectMask OldLayout NewLayout SubresRange) OldLayout with
    | none => none
    | some ImgBarrier2 =>
      match applyNewLayoutSwitch ImgBarrier2 NewLayout with
      | none => none
      | some ImgBarrier3 =>
        match (if SrcStages = 0 then mapper ImgBarrier3.srcAccessMask
               else some SrcStages) with
        | none => none
        | some SrcStages2 =>
          match (if DestStages = 0 then mapper ImgBarrier3.dstAccessMask
                 else some DestStages) with
          | none => none
          | some DestStages2 =>
            some (vkCmdPipelineBarrier CmdBufferCmds SrcStages2 DestStages2 0 0 0 1
              [ImgBarrier3])

/-- `VulkanCommandBuffer::TransitionImageLayout` with the mapper the
source actually calls, `PipelineStageFromAccessFlags`. -/
def TransitionImageLayout (CmdBufferCmds : List PipelineBarrierCmd)
    (CmdBuffer Image AspectMask OldLayout NewLayout : Nat)
    (SubresRange : VkImageSubresourceRange)
    (SrcStages DestStages : Nat) : Option (List PipelineBarrierCmd) :=
  TransitionImageLayoutWith PipelineStageFromAccessFlags CmdBufferCmds CmdBuffer Image
    AspectMask OldLayout NewLayout SubresRange SrcStages DestStages

/-- `VulkanCommandBuffer::FlushBarriers` (lines 316-319): the body is
empty, so the recorded command list is left unchanged. -/
def FlushBarriers (CmdBufferCmds : List PipelineBarrierCmd) : List PipelineBarrierCmd :=
  CmdBufferCmds

/-- Equality of all `VkImageMemoryBarrier` fields other than the two
access masks (the only fields the two layout switches may write). -/
def coreFieldsEq (b b' : VkImageMemoryBarrier) : Prop :=
  b'.sType = b.sType ∧ b'.pNext = b.pNext ∧ b'.oldLayout = b.oldLayout ∧
  b'.newLayout = b.newLayout ∧ b'.srcQueueFamilyIndex = b.srcQueueFamilyIndex ∧
  b'.dstQueueFamilyIndex = b.dstQueueFamilyIndex ∧ b'.image = b.image ∧
  b'.subresourceRange = b.subresourceRange

theorem applyOldLayoutSwitch_unknown (b : VkImageMemoryBarrier) {ol : Nat}
    (h0 : ol ≠ VK_IMAGE_LAYOUT_UNDEFINED) (h1 : ol ≠ VK_IMAGE_LAYOUT_GENERAL)
    (h2 : ol ≠ VK_IMAGE_LAYOUT_COLOR_ATTACHMENT_OPTIMAL)
    (h3 : ol ≠ VK_IMAGE_LAYOUT_DEPTH_STENCIL_ATTACHMENT_OPTIMAL)
    (h4 : ol ≠ VK_IMAGE_LAYOUT_DEPTH_STENCIL_READ_ONLY_OPTIMAL)
    (h5 : ol ≠ VK_IMAGE_LAYOUT_SHADER_READ_ONLY_OPTIMAL)
    (h6 : ol ≠ VK_IMAGE_LAYOUT_TRANSFER_SRC_OPTIMAL)
    (h7 : ol ≠ VK_IMAGE_LAYOUT_TRANSFER_DST_OPTIMAL)
    (h8 : ol ≠ VK_IMAGE_LAYOUT_PREINITIALIZED)
    (h9 : ol ≠ VK_IMAGE_LAYOUT_DEPTH_READ_ONLY_STENCIL_ATTACHMENT_OPTIMAL)
    (h10 : ol ≠ VK_IMAGE_LAYOUT_DEPTH_ATTACHMENT_STENCIL_READ_ONLY_OPTIMAL)
    (h11 : ol ≠ VK_IMAGE_LAYOUT_PRESENT_SRC_KHR) :
    applyOldLayoutSwitch b ol = none := by
  unfold applyOldLayoutSwitch
  rw [if_neg h0, if_neg h1, if_neg h2, if_neg h3, if_neg h4, if_neg h5, if_neg h6,
    if_neg h7, if_neg h8, if_neg h9, if_neg h10, if_neg h11]
  rfl

theorem applyNewLayoutSwitch_unknown (b : VkImageMemoryBarrier) {nl : Nat}
    (h0 : nl ≠ VK_IMAGE_LAYOUT_UNDEFINED) (h1 : nl ≠ VK_IMAGE_LAYOUT_GENERAL)
    (h2 : nl ≠ VK_IMAGE_LAYOUT_COLOR_ATTACHMENT_OPTIMAL)
    (h3 : nl ≠ VK_IMAGE_LAYOUT_DEPTH_STENCIL_ATTACHMENT_OPTIMAL)
    (h4 : nl ≠ VK_IMAGE_LAYOUT_DEPTH_STENCIL_READ_ONLY_OPTIMAL)
    (h5 : nl ≠ VK_IMAGE_LAYOUT_SHADER_READ_ONLY_OPTIMAL)
    (h6 : nl ≠ VK_IMAGE_LAYOUT_TRANSFER_SRC_OPTIMAL)
    (h7 : nl ≠ VK_IMAGE_LAYOUT_TRANSFER_DST_OPTIMAL)
    (h8 : nl ≠ VK_IMAGE_LAYOUT_PREINITIALIZED)
    (h9 : nl ≠ VK_IMAGE_LAYOUT_DEPTH_READ_ONLY_STENCIL_ATTACHMENT_OPTIMAL)
    (h10 : nl ≠ VK_IMAGE_LAYOUT_DEPTH_ATTACHMENT_STENCIL_READ_ONLY_OPTIMAL)
    (h11 : nl ≠ VK_IMAGE_LAYOUT_PRESENT_SRC_KHR) :
    applyNewLayoutSwitch b nl = none := by
  unfold applyNewLayoutSwitch
  rw [if_neg h0, if_neg h1, if_neg h2, if_neg h3, if_neg h4, if_neg h5, if_neg h6,
    if_neg h7, if_neg h8, if_neg h9, if_neg h10, if_neg h11]
  rfl

theorem applyOldLayoutSwitch_core {b b' : VkImageMemoryBarrier} {ol : Nat}
    (h : applyOldLayoutSwitch b ol = some b') :
    coreFieldsEq b b' ∧ b'.dstAccessMask = b.dstAccessMask := by
  by_cases h0 : ol = VK_IMAGE_LAYOUT_UNDEFINED
  · subst h0
    rw [(rfl : applyOldLayoutSwitch b VK_IMAGE_LAYOUT_UNDEFINED = some b)] at h
    injection h with h
    subst h
    exact ⟨⟨rfl, rfl, rfl, rfl, rfl, rfl, rfl, rfl⟩, rfl⟩
  by_cases h1 : ol = VK_IMAGE_LAYOUT_GENERAL
  · subst h1
    rw [(rfl : applyOldLayoutSwitch b VK_IMAGE_LAYOUT_GENERAL = none)] at h
    exact Option.noConfusion h
  by_cases h2 : ol = VK_IMAGE_LAYOUT_COLOR_ATTACHMENT_OPTIMAL
  · subst h2
    rw [(rfl : applyOldLayoutSwitch b VK_IMAGE_LAYOUT_COLOR_ATTACHMENT_OPTIMAL =
      some { b with srcAccessMask := VK_ACCESS_COLOR_ATTACHMENT_WRITE_BIT })] at h
    injection h with h
    subst h
    exact ⟨⟨rfl, rfl, rfl, rfl, rfl, rfl, rfl, rfl⟩, rfl⟩
  by_cases h3 : ol = VK_IMAGE_LAYOUT_DEPTH_STENCIL_ATTACHMENT_OPTIMAL
  · subst h3
    rw [(rfl : applyOldLayoutSwitch b VK_IMAGE_LAYOUT_DEPTH_STENCIL_ATTACHMENT_OPTIMAL =
      some { b with srcAccessMask := VK_ACCESS_DEPTH_STENCIL_ATTACHMENT_WRITE_BIT })] at h
    injection h with h
    subst h
    exact ⟨⟨rfl, rfl, rfl, rfl, rfl, rfl, rfl, rfl⟩, rfl⟩
  by_cases h4 : ol = VK_IMAGE_LAYOUT_DEPTH_STENCIL_READ_ONLY_OPTIMAL
  · subst h4
    rw [(rfl : applyOldLayoutSwitch b VK_IMAGE_LAYOUT_DEPTH_STENCIL_READ_ONLY_OPTIMAL =
      some { b with srcAccessMask := VK_ACCESS_DEPTH_STENCIL_ATTACHMENT_READ_BIT })] at h
    injection h with h
    subst h
    exact ⟨⟨rfl, rfl, rfl, rfl, rfl, rfl, rfl, rfl⟩, rfl⟩
  by_cases h5 : ol = VK_IMAGE_LAYOUT_SHADER_READ_ONLY_OPTIMAL
  · subst h5
    rw [(rfl : applyOldLayoutSwitch b VK_IMAGE_LAYOUT_SHADER_READ_ONLY_OPTIMAL =
      some { b with srcAccessMask := VK_ACCESS_SHADER_READ_BIT })] at h
    injection h with h
    subst h
    exact ⟨⟨rfl, rfl, rfl, rfl, rfl, rfl, rfl, rfl⟩, rfl⟩
  by_cases h6 : ol = VK_IMAGE_LAYOUT_TRANSFER_SRC_OPTIMAL
  · subst h6
    rw [(rfl : applyOldLayoutSwitch b VK_IMAGE_LAYOUT_TRANSFER_SRC_OPTIMAL =
      some { b with srcAccessMask := VK_ACCESS_TRANSFER_READ_BIT })] at h
    injection h with h
    subst h
    exact ⟨⟨rfl, rfl, rfl, rfl, rfl, rfl, rfl, rfl⟩, rfl⟩
  by_cases h7 : ol = VK_IMAGE_LAYOUT_TRANSFER_DST_OPTIMAL
  · subst h7
    rw [(rfl : applyOldLayoutSwitch b VK_IMAGE_LAYOUT_TRANSFER_DST_OPTIMAL =
      some { b with srcAccessMask := VK_ACCESS_TRANSFER_WRITE_BIT })] at h
    injection h with h
    subst h
    exact ⟨⟨rfl, rfl, rfl, rfl, rfl, rfl, rfl, rfl⟩, rfl⟩
  by_cases h8 : ol = VK_IMAGE_LAYOUT_PREINITIALIZED
  · subst h8
    rw [(rfl : applyOldLayoutSwitch b VK_IMAGE_LAYOUT_PREINITIALIZED =
      some { b with srcAccessMask := VK_ACCESS_HOST_WRITE_BIT })] at h
    injection h with h
    subst h
    exact ⟨⟨rfl, rfl, rfl, rfl, rfl, rfl, rfl, rfl⟩, rfl⟩
  by_cases h9 : ol = VK_IMAGE_LAYOUT_DEPTH_READ_ONLY_STENCIL_ATTACHMENT_OPTIMAL
  · subst h9
    rw [(rfl : applyOldLayoutSwitch b
        VK_IMAGE_LAYOUT_DEPTH_READ_ONLY_STENCIL_ATTACHMENT_OPTIMAL =
      some { b with srcAccessMask := VK_ACCESS_DEPTH_STENCIL_ATTACHMENT_READ_BIT })] at h
    injection h with h
    subst h
    exact ⟨⟨rfl, rfl, rfl, rfl, rfl, rfl, rfl, rfl⟩, rfl⟩
  by_cases h10 : ol = VK_IMAGE_LAYOUT_DEPTH_ATTACHMENT_STENCIL_READ_ONLY_OPTIMAL
  · subst h10
    rw [(rfl : applyOldLayoutSwitch b
        VK_IMAGE_LAYOUT_DEPTH_ATTACHMENT_STENCIL_READ_ONLY_OPTIMAL =
      some { b with srcAccessMask := VK_ACCESS_DEPTH_STENCIL_ATTACHMENT_READ_BIT })] at h
    injection h with h
    subst h
    exact ⟨⟨rfl, rfl, rfl, rfl, rfl, rfl, rfl, rfl⟩, rfl⟩
  by_cases h11 : ol = VK_IMAGE_LAYOUT_PRESENT_SRC_KHR
  · subst h11
    rw [(rfl : applyOldLayoutSwitch b VK_IMAGE_LAYOUT_PRESENT_SRC_KHR =
      some { b with srcAccessMask := VK_ACCESS_MEMORY_READ_BIT })] at h
    injection h with h
    subst h
    exact ⟨⟨rfl, rfl, rfl, rfl, rfl, rfl, rfl, rfl⟩, rfl⟩
  rw [applyOldLayoutSwitch_unknown b h0 h1 h2 h3 h4 h5 h6 h7 h8 h9 h10 h11] at h
  exact Option.noConfusion h

theorem applyNewLayoutSwitch_core {b b' : VkImageMemoryBarrier} {nl : Nat}
    (h : applyNewLayoutSwitch b nl = some b') : coreFieldsEq b b' := by
  by_cases h0 : nl = VK_IMAGE_LAYOUT_UNDEFINED
  · subst h0
    rw [(rfl : applyNewLayoutSwitch b VK_IMAGE_LAYOUT_UNDEFINED = none)] at h
    exact Option.noConfusion h
  by_cases h1 : nl = VK_IMAGE_LAYOUT_GENERAL
  · subst h1
    rw [(rfl : applyNewLayoutSwitch b VK_IMAGE_LAYOUT_GENERAL = none)] at h
    exact Option.noConfusion h
  by_cases h2 : nl = VK_IMAGE_LAYOUT_COLOR_ATTACHMENT_OPTIMAL
  · subst h2
    rw [(rfl : applyNewLayoutSwitch b VK_IMAGE_LAYOUT_COLOR_ATTACHMENT_OPTIMAL =
      some { b with dstAccessMask := VK_ACCESS_COLOR_ATTACHMENT_WRITE_BIT })] at h
    injection h with h
    subst h
    exact ⟨rfl, rfl, rfl, rfl, rfl, rfl, rfl, rfl⟩
  by_cases h3 : nl = VK_IMAGE_LAYOUT_DEPTH_STENCIL_ATTACHMENT_OPTIMAL
  · subst h3
    rw [(rfl : applyNewLayoutSwitch b VK_IMAGE_LAYOUT_DEPTH_STENCIL_ATTACHMENT_OPTIMAL =
      some { b with dstAccessMask := VK_ACCESS_DEPTH_STENCIL_ATTACHMENT_WRITE_BIT })] at h
    injection h with h
    subst h
    exact ⟨rfl, rfl, rfl, rfl, rfl, rfl, rfl, rfl⟩
  by_cases h4 : nl = VK_IMAGE_LAYOUT_DEPTH_STENCIL_READ_ONLY_OPTIMAL
  · subst h4
    rw [(rfl : applyNewLayoutSwitch b VK_IMAGE_LAYOUT_DEPTH_STENCIL_READ_ONLY_OPTIMAL =
      some { b with srcAccessMask := VK_ACCESS_DEPTH_STENCIL_ATTACHMENT_READ_BIT })] at h
    injection h with h
    subst h
    exact ⟨rfl, rfl, rfl, rfl, rfl, rfl, rfl, rfl⟩
  by_cases h5 : nl = VK_IMAGE_LAYOUT_SHADER_READ_ONLY_OPTIMAL
  · subst h5
    rw [(rfl : applyNewLayoutSwitch b VK_IMAGE_LAYOUT_SHADER_READ_ONLY_OPTIMAL =
      some { b with dstAccessMask :=
        VK_ACCESS_SHADER_READ_BIT ||| VK_ACCESS_INPUT_ATTACHMENT_READ_BIT })] at h
    injection h with h
    subst h
    exact ⟨rfl, rfl, rfl, rfl, rfl, rfl, rfl, rfl⟩
  by_cases h6 : nl = VK_IMAGE_LAYOUT_TRANSFER_SRC_OPTIMAL
  · subst h6
    rw [(rfl : applyNewLayoutSwitch b VK_IMAGE_LAYOUT_TRANSFER_SRC_OPTIMAL =
      some { b with dstAccessMask := VK_ACCESS_TRANSFER_READ_BIT })] at h
    injection h with h
    subst h
    exact ⟨rfl, rfl, rfl, rfl, rfl, rfl, rfl, rfl⟩
  by_cases h7 : nl = VK_IMAGE_LAYOUT_TRANSFER_DST_OPTIMAL
  · subst h7
    rw [(rfl : applyNewLayoutSwitch b VK_IMAGE_LAYOUT_TRANSFER_DST_OPTIMAL =
      some { b with dstAccessMask := VK_ACCESS_TRANSFER_WRITE_BIT })] at h
    injection h with h
    subst h
    exact ⟨rfl, rfl, rfl, rfl, rfl, rfl, rfl, rfl⟩
  by_cases h8 : nl = VK_IMAGE_LAYOUT_PREINITIALIZED
  · subst h8
    rw [(rfl : applyNewLayoutSwitch b VK_IMAGE_LAYOUT_PREINITIALIZED = none)] at h
    exact Option.noConfusion h
  by_cases h9 : nl = VK_IMAGE_LAYOUT_DEPTH_READ_ONLY_STENCIL_ATTACHMENT_OPTIMAL
  · subst h9
    rw [(rfl : applyNewLayoutSwitch b
        VK_IMAGE_LAYOUT_DEPTH_READ_ONLY_STENCIL_ATTACHMENT_OPTIMAL =
      some { b with dstAccessMask := VK_ACCESS_DEPTH_STENCIL_ATTACHMENT_READ_BIT })] at h
    injection h with h
    subst h
    exact ⟨rfl, rfl, rfl, rfl, rfl, rfl, rfl, rfl⟩
  by_cases h10 : nl = VK_IMAGE_LAYOUT_DEPTH_ATTACHMENT_STENCIL_READ_ONLY_OPTIMAL
  · subst h10
    rw [(rfl : applyNewLayoutSwitch b
        VK_IMAGE_LAYOUT_DEPTH_ATTACHMENT_STENCIL_READ_ONLY_OPTIMAL =
      some { b with dstAccessMask := VK_ACCESS_DEPTH_STENCIL_ATTACHMENT_READ_BIT })] at h
    injection h with h
    subst h
    exact ⟨rfl, rfl, rfl, rfl, rfl, rfl, rfl, rfl⟩
  by_cases h11 : nl = VK_IMAGE_LAYOUT_PRESENT_SRC_KHR
  · subst h11
    rw [(rfl : applyNewLayoutSwitch b VK_IMAGE_LAYOUT_PRESENT_SRC_KHR =
      some { b with dstAccessMask := VK_ACCESS_MEMORY_READ_BIT })] at h
    injection h with h
    subst h
    exact ⟨rfl, rfl, rfl, rfl, rfl, rfl, rfl, rfl⟩
  rw [applyNewLayoutSwitch_unknown b h0 h1 h2 h3 h4 h5 h6 h7 h8 h9 h10 h11] at h
  exact Option.noConfusion h

/-- Inversion of a successful `TransitionImageLayoutWith` call into the
results of its individual steps. -/
theorem TransitionImageLayoutWith_inv {mapper : Nat → Option Nat}
    {CmdBufferCmds : List PipelineBarrierCmd}
    {CmdBuffer Image AspectMask OldLayout NewLayout : Nat}
    {SubresRange : VkImageSubresourceRange} {SrcStages DestStages : Nat}
    {l : List PipelineBarrierCmd}
    (h : TransitionImageLayoutWith mapper CmdBufferCmds CmdBuffer Image AspectMask
      OldLayout NewLayout SubresRange SrcStages DestStages = some l) :
    CmdBuffer ≠ 0 ∧ ∃ b2 b3 ss2 ds2,
      applyOldLayoutSwitch
        (mkInitialBarrier Image AspectMask OldLayout NewLayout SubresRange) OldLayout
        = some b2 ∧
      applyNewLayoutSwitch b2 NewLayout = some b3 ∧
      (if SrcStages = 0 then mapper b3.srcAccessMask else some SrcStages) = some ss2 ∧
      (if DestStages = 0 then mapper b3.dstAccessMask else some DestStages) = some ds2 ∧
      l = CmdBufferCmds ++
        [{ srcStageMask := ss2, dstStageMask := ds2, dependencyFlags := 0,
           memoryBarrierCount := 0, bufferMemoryBarrierCount := 0,
           imageMemoryBarrierCount := 1, imageMemoryBarriers := [b3] }] := by
  unfold TransitionImageLayoutWith at h
  by_cases hcb : CmdBuffer = 0
  · rw [if_pos hcb] at h
    exact Option.noConfusion h
  refine ⟨hcb, ?_⟩
  rw [if_neg hcb] at h
  cases e1 : applyOldLayoutSwitch
      (mkInitialBarrier Image AspectMask OldLayout NewLayout SubresRange) OldLayout with
  | none =>
    simp only [e1] at h
    exact Option.noConfusion h
  | some b2 =>
    simp only [e1] at h
    cases e2 : applyNewLayoutSwitch b2 NewLayout with
    | none =>
      simp only [e2] at h
      exact Option.noConfusion h
    | some b3 =>
      simp only [e2] at h
      cases e3 : (if SrcStages = 0 then mapper b3.srcAccessMask else some SrcStages) with
      | none =>
        simp only [e3] at h
        exact Option.noConfusion h
      | some ss2 =>
        simp only [e3] at h
        cases e4 : (if DestStages = 0 then mapper b3.dstAccessMask
            else some DestStages) with
        | none =>
          simp only [e4] at h
          exact Option.noConfusion h
        | some ds2 =>
          simp only [e4] at h
          injection h with h
          exact ⟨b2, b3, ss2, ds2, rfl, e2, e3, e4, h.symm⟩

theorem append_singleton_inj {α : Type} {l : List α} {a b : α}
    (h : l ++ [a] = l ++ [b]) : a = b := by
  induction l with
  | nil =>
    injection h with h1 h2
  | cons x t ih =>
    injection h with h1 h2
    exact ih h2

/-- With both stage hints supplied non-zero, the access-to-stage mapper
is irrelevant to the result of `TransitionImageLayoutWith`: the call
behaves identically with the always-failing mapper, so the mapper is
never consulted. -/
theorem TransitionImageLayoutWith_mapper_irrelevant (mapper : Nat → Option Nat)
    (CmdBufferCmds : List PipelineBarrierCmd)
    (CmdBuffer Image AspectMask OldLayout NewLayout : Nat)
    (SubresRange : VkImageSubresourceRange) {SrcStages DestStages : Nat}
    (hss : SrcStages ≠ 0) (hds : DestStages ≠ 0) :
    TransitionImageLayoutWith mapper CmdBufferCmds CmdBuffer Image AspectMask OldLayout
      NewLayout SubresRange SrcStages DestStages =
    TransitionImageLayoutWith (fun _a => none) CmdBufferCmds CmdBuffer Image AspectMask
      OldLayout NewLayout SubresRange SrcStages DestStages := by
  unfold TransitionImageLayoutWith
  simp only [if_neg hss, if_neg hds]

def sampleRange : VkImageSubresourceRange :=
  { aspectMask := 1, baseMipLevel := 0, levelCount := 1,
    baseArrayLayer := 0, layerCount := 1 }

/-- The barrier recorded by end-to-end scenario A of the spec
(old = shader-read-only, new = transfer-destination). -/
def scenarioABarrier : VkImageMemoryBarrier :=
  { sType := 45, pNext := 0, srcAccessMask := 32, dstAccessMask := 4096,
    oldLayout := 5, newLayout := 7, srcQueueFamilyIndex := 4294967295,
    dstQueueFamilyIndex := 4294967295, image := 1, subresourceRange := sampleRange }

/-- The command recorded by end-to-end scenario A of the spec. -/
def scenarioACmd : PipelineBarrierCmd :=
  { srcStageMask := 2296, dstStageMask := 4096, dependencyFlags := 0,
    memoryBarrierCount := 0, bufferMemoryBarrierCount := 0,
    imageMemoryBarrierCount := 1, imageMemoryBarriers := [scenarioABarrier] }

theorem scenarioA_eval :
    TransitionImageLayout [] 1 1 0 VK_IMAGE_LAYOUT_SHADER_READ_ONLY_OPTIMAL
      VK_IMAGE_LAYOUT_TRANSFER_DST_OPTIMAL sampleRange 0 0 = some [scenarioACmd] := by
  have h32 : PipelineStageFromAccessFlags 32 = some 2296 := by
    rw [PipelineStageFromAccessFlags_eq 32 (by decide)]
    decide
  have h4096 : PipelineStageFromAccessFlags 4096 = some 4096 := by
    rw [PipelineStageFromAccessFlags_eq 4096 (by decide)]
    decide
  have hstep : TransitionImageLayout [] 1 1 0 VK_IMAGE_LAYOUT_SHADER_READ_ONLY_OPTIMAL
      VK_IMAGE_LAYOUT_TRANSFER_DST_OPTIMAL sampleRange 0 0 =
      (match PipelineStageFromAccessFlags 32 with
       | none => none
       | some SrcStages2 =>
         match PipelineStageFromAccessFlags 4096 with
         | none => none
         | some DestStages2 =>
           some (vkCmdPipelineBarrier [] SrcStages2 DestStages2 0 0 0 1
             [scenarioABarrier])) := rfl
  rw [hstep]
  simp only [h32, h4096]
  decide

theorem pSFA_eval (x v : Nat) (hx : x < 131072) (hv : accessWordStages x = v) :
    PipelineStageFromAccessFlags x = some v := by
  rw [PipelineStageFromAccessFlags_eq x hx, hv]

/-- The barrier recorded for old = color-attachment, new =
transfer-destination with both stage hints set to 1. -/
def colorToTransferBarrier : VkImageMemoryBarrier :=
  { sType := 45, pNext := 0, srcAccessMask := 256, dstAccessMask := 4096,
    oldLayout := 2, newLayout := 7, srcQueueFamilyIndex := 4294967295,
    dstQueueFamilyIndex := 4294967295, image := 1, subresourceRange := sampleRange }

/-- The command recorded for old = color-attachment, new =
transfer-destination with both stage hints set to 1. -/
def colorToTransferCmd : PipelineBarrierCmd :=
  { srcStageMask := 1, dstStageMask := 1, dependencyFlags := 0,
    memoryBarrierCount := 0, bufferMemoryBarrierCount := 0,
    imageMemoryBarrierCount := 1, imageMemoryBarriers := [colorToTransferBarrier] }

/-- The barrier recorded for old = color-attachment, new =
depth-stencil-read-only with both stage hints set to 1: srcAccessMask
has been overwritten with the depth/stencil read bit by the new-layout
switch, and dstAccessMask was never assigned. -/
def colorToDepthStencilReadOnlyBarrier : VkImageMemoryBarrier :=
  { sType := 45, pNext := 0, srcAccessMask := 512, dstAccessMask := 0,
    oldLayout := 2, newLayout := 4, srcQueueFamilyIndex := 4294967295,
    dstQueueFamilyIndex := 4294967295, image := 1, subresourceRange := sampleRange }

/-- The command recorded for old = color-attachment, new =
depth-stencil-read-only with both stage hints set to 1. -/
def colorToDepthStencilReadOnlyCmd : PipelineBarrierCmd :=
  { srcStageMask := 1, dstStageMask := 1, dependencyFlags := 0,
    memoryBarrierCount := 0, bufferMemoryBarrierCount := 0,
    imageMemoryBarrierCount := 1,
    imageMemoryBarriers := [colorToDepthStencilReadOnlyBarrier] }

/-- Claim C1 (code-bug evidence): the claim says the recorded source
access mask is a function of the old layout alone and the destination
access mask a function of the new layout alone, per the tables of
section 4.2. The code violates this: the new-layout switch case for
`VK_IMAGE_LAYOUT_DEPTH_STENCIL_READ_ONLY_OPTIMAL` (source line 260)
assigns `srcAccessMask` instead of `dstAccessMask`. With the old layout
fixed to color-attachment-optimal, a new layout of
depth-stencil-read-only records srcAccessMask = 512 (the depth/stencil
read bit, overwriting the color-attachment write bit) and
dstAccessMask = 0, while a new layout of transfer-destination records
srcAccessMask = 256 — so the source access mask depends on the new
layout, and the destination table value for depth-stencil-read-only is
never written. -/
theorem C1_dst_table_bug_eval :
    TransitionImageLayout [] 1 1 0 VK_IMAGE_LAYOUT_COLOR_ATTACHMENT_OPTIMAL
      VK_IMAGE_LAYOUT_DEPTH_STENCIL_READ_ONLY_OPTIMAL sampleRange 1 1 =
      some [colorToDepthStencilReadOnlyCmd] ∧
    TransitionImageLayout [] 1 1 0 VK_IMAGE_LAYOUT_COLOR_ATTACHMENT_OPTIMAL
      VK_IMAGE_LAYOUT_TRANSFER_DST_OPTIMAL sampleRange 1 1 =
      some [colorToTransferCmd] := by
  exact ⟨by decide, by decide⟩

/-- Claim C2: for every single-bit access kind,
`PipelineStageFromAccessFlags` returns exactly the stage set of the
table in section 4.1; the generic memory read/write kinds contribute no
stage at all. -/
theorem C2_single_bit_stage_table :
    PipelineStageFromAccessFlags VK_ACCESS_INDIRECT_COMMAND_READ_BIT =
      some VK_PIPELINE_STAGE_DRAW_INDIRECT_BIT ∧
    PipelineStageFromAccessFlags VK_ACCESS_INDEX_READ_BIT =
      some VK_PIPELINE_STAGE_VERTEX_INPUT_BIT ∧
    PipelineStageFromAccessFlags VK_ACCESS_VERTEX_ATTRIBUTE_READ_BIT =
      some VK_PIPELINE_STAGE_VERTEX_INPUT_BIT ∧
    PipelineStageFromAccessFlags VK_ACCESS_UNIFORM_READ_BIT =
      some (ALL_GRAPHICS_SHADER_STAGES_BITS ||| VK_PIPELINE_STAGE_COMPUTE_SHADER_BIT) ∧
    PipelineStageFromAccessFlags VK_ACCESS_INPUT_ATTACHMENT_READ_BIT =
      some VK_PIPELINE_STAGE_FRAGMENT_SHADER_BIT ∧
    PipelineStageFromAccessFlags VK_ACCESS_SHADER_READ_BIT =
      some (ALL_GRAPHICS_SHADER_STAGES_BITS ||| VK_PIPELINE_STAGE_COMPUTE_SHADER_BIT) ∧
    PipelineStageFromAccessFlags VK_ACCESS_SHADER_WRITE_BIT =
      some (ALL_GRAPHICS_SHADER_STAGES_BITS ||| VK_PIPELINE_STAGE_COMPUTE_SHADER_BIT) ∧
    PipelineStageFromAccessFlags VK_ACCESS_COLOR_ATTACHMENT_READ_BIT =
      some VK_PIPELINE_STAGE_COLOR_ATTACHMENT_OUTPUT_BIT ∧
    PipelineStageFromAccessFlags VK_ACCESS_COLOR_ATTACHMENT_WRITE_BIT =
      some VK_PIPELINE_STAGE_COLOR_ATTACHMENT_OUTPUT_BIT ∧
    PipelineStageFromAccessFlags VK_ACCESS_DEPTH_STENCIL_ATTACHMENT_READ_BIT =
      some (VK_PIPELINE_STAGE_EARLY_FRAGMENT_TESTS_BIT |||
        VK_PIPELINE_STAGE_LATE_FRAGMENT_TESTS_BIT) ∧
    PipelineStageFromAccessFlags VK_ACCESS_DEPTH_STENCIL_ATTACHMENT_WRITE_BIT =
      some (VK_PIPELINE_STAGE_EARLY_FRAGMENT_TESTS_BIT |||
        VK_PIPELINE_STAGE_LATE_FRAGMENT_TESTS_BIT) ∧
    PipelineStageFromAccessFlags VK_ACCESS_TRANSFER_READ_BIT =
      some VK_PIPELINE_STAGE_TRANSFER_BIT ∧
    PipelineStageFromAccessFlags VK_ACCESS_TRANSFER_WRITE_BIT =
      some VK_PIPELINE_STAGE_TRANSFER_BIT ∧
    PipelineStageFromAccessFlags VK_ACCESS_HOST_READ_BIT =
      some VK_PIPELINE_STAGE_HOST_BIT ∧
    PipelineStageFromAccessFlags VK_ACCESS_HOST_WRITE_BIT =
      some VK_PIPELINE_STAGE_HOST_BIT ∧
    PipelineStageFromAccessFlags VK_ACCESS_MEMORY_READ_BIT = some 0 ∧
    PipelineStageFromAccessFlags VK_ACCESS_MEMORY_WRITE_BIT = some 0 := by
  refine ⟨?_, ?_, ?_, ?_, ?_, ?_, ?_, ?_, ?_, ?_, ?_, ?_, ?_, ?_, ?_, ?_, ?_⟩ <;>
    refine pSFA_eval _ _ (by decide) (by decide)

/-- Claim C3: `PipelineStageFromAccessFlags` maps the empty access mask
to the empty stage mask, and is a homomorphism from access-mask union to
stage-mask union on access masks over the 17 defined access kinds. -/
theorem C3_stage_mapper_hom :
    PipelineStageFromAccessFlags 0 = some 0 ∧
    ∀ A B : Nat, A < 131072 → B < 131072 →
      ∃ sA sB, PipelineStageFromAccessFlags A = some sA ∧
        PipelineStageFromAccessFlags B = some sB ∧
        PipelineStageFromAccessFlags (A ||| B) = some (sA ||| sB) := by
  constructor
  · exact pSFA_eval 0 0 (by decide) (by decide)
  · intro A B hA hB
    have h17 : (131072:Nat) = 2 ^ 17 := by norm_num
    have hAB : A ||| B < 131072 := by
      rw [h17] at hA hB ⊢
      exact Nat.or_lt_two_pow hA hB
    exact ⟨accessWordStages A, accessWordStages B,
      PipelineStageFromAccessFlags_eq A hA, PipelineStageFromAccessFlags_eq B hB,
      by rw [PipelineStageFromAccessFlags_eq (A ||| B) hAB, accessWordStages_or]⟩

theorem C3_stage_mapper_hom_witness :
    ∃ sA sB, PipelineStageFromAccessFlags 8 = some sA ∧
      PipelineStageFromAccessFlags 4096 = some sB ∧
      PipelineStageFromAccessFlags (8 ||| 4096) = some (sA ||| sB) :=
  C3_stage_mapper_hom.2 8 4096 (by decide) (by decide)

/-- Claim C4: when both stage hints are non-zero, the recorded command
uses exactly the supplied stage masks and the access-to-stage mapper is
never invoked (the result is identical for every mapper, in particular
the always-failing one); when a hint is zero, the corresponding recorded
stage mask is exactly `PipelineStageFromAccessFlags` applied to the
access mask of the recorded barrier. -/
theorem C4_stage_hints :
    ∀ (mapper : Nat → Option Nat) (cmds : List PipelineBarrierCmd)
      (CmdBuffer Image AspectMask OldLayout NewLayout : Nat)
      (SubresRange : VkImageSubresourceRange) (SrcStages DestStages : Nat)
      (c : PipelineBarrierCmd) (b : VkImageMemoryBarrier),
      (SrcStages ≠ 0 → DestStages ≠ 0 →
        (TransitionImageLayoutWith mapper cmds CmdBuffer Image AspectMask OldLayout
            NewLayout SubresRange SrcStages DestStages =
          TransitionImageLayoutWith (fun _a => none) cmds CmdBuffer Image AspectMask
            OldLayout NewLayout SubresRange SrcStages DestStages) ∧
        (TransitionImageLayoutWith mapper cmds CmdBuffer Image AspectMask OldLayout
            NewLayout SubresRange SrcStages DestStages = some (cmds ++ [c]) →
          c.srcStageMask = SrcStages ∧ c.dstStageMask = DestStages)) ∧
      (TransitionImageLayout cmds CmdBuffer Image AspectMask OldLayout NewLayout
          SubresRange SrcStages DestStages = some (cmds ++ [c]) →
        c.imageMemoryBarriers = [b] →
        (SrcStages = 0 →
          PipelineStageFromAccessFlags b.srcAccessMask = some c.srcStageMask) ∧
        (DestStages = 0 →
          PipelineStageFromAccessFlags b.dstAccessMask = some c.dstStageMask)) := by
  intro mapper cmds cb img am ol nl sr ss ds c b
  constructor
  · intro hss hds
    constructor
    · exact TransitionImageLayoutWith_mapper_irrelevant mapper cmds cb img am ol nl sr
        hss hds
    · intro hsucc
      obtain ⟨hcb, b2, b3, ss2, ds2, e1, e2, e3, e4, hl⟩ :=
        TransitionImageLayoutWith_inv hsucc
      have hc := append_singleton_inj hl
      rw [if_neg hss] at e3
      rw [if_neg hds] at e4
      injection e3 with e3
      injection e4 with e4
      constructor
      · rw [hc]
        exact e3.symm
      · rw [hc]
        exact e4.symm
  · intro hsucc hib
    unfold TransitionImageLayout at hsucc
    obtain ⟨hcb, b2, b3, ss2, ds2, e1, e2, e3, e4, hl⟩ :=
      TransitionImageLayoutWith_inv hsucc
    have hc := append_singleton_inj hl
    have hib' : [b3] = [b] := by
      rw [hc] at hib
      exact hib
    injection hib' with hb3 htl
    constructor
    · intro hss0
      subst hss0
      rw [if_pos rfl] at e3
      rw [hc, ← hb3]
      exact e3
    · intro hds0
      subst hds0
      rw [if_pos rfl] at e4
      rw [hc, ← hb3]
      exact e4

theorem C4_stage_hints_witness :
    (TransitionImageLayoutWith PipelineStageFromAccessFlags [] 1 1 0
        VK_IMAGE_LAYOUT_COLOR_ATTACHMENT_OPTIMAL VK_IMAGE_LAYOUT_TRANSFER_DST_OPTIMAL
        sampleRange 2 4 =
      TransitionImageLayoutWith (fun _a => none) [] 1 1 0
        VK_IMAGE_LAYOUT_COLOR_ATTACHMENT_OPTIMAL VK_IMAGE_LAYOUT_TRANSFER_DST_OPTIMAL
        sampleRange 2 4) ∧
    PipelineStageFromAccessFlags scenarioABarrier.srcAccessMask =
      some scenarioACmd.srcStageMask := by
  constructor
  · exact ((C4_stage_hints PipelineStageFromAccessFlags [] 1 1 0
      VK_IMAGE_LAYOUT_COLOR_ATTACHMENT_OPTIMAL VK_IMAGE_LAYOUT_TRANSFER_DST_OPTIMAL
      sampleRange 2 4 scenarioACmd scenarioABarrier).1 (by decide) (by decide)).1
  · exact ((C4_stage_hints PipelineStageFromAccessFlags [] 1 1 0
      VK_IMAGE_LAYOUT_SHADER_READ_ONLY_OPTIMAL VK_IMAGE_LAYOUT_TRANSFER_DST_OPTIMAL
      sampleRange 0 0 scenarioACmd scenarioABarrier).2 scenarioA_eval rfl).1 rfl

/-- Claim C5: every successful call to `TransitionImageLayout` records
exactly one pipeline-barrier command, appended to the previously
recorded commands, containing exactly one image barrier, zero global
memory barriers and zero buffer barriers; the barrier's old/new layout
fields are the given layouts, its subresource range is the given range,
and both queue family indices are `VK_QUEUE_FAMILY_IGNORED`. -/
theorem C5_single_barrier_recorded :
    ∀ (cmds : List PipelineBarrierCmd) (CmdBuffer Image AspectMask OldLayout NewLayout : Nat)
      (SubresRange : VkImageSubresourceRange) (SrcStages DestStages : Nat)
      (l : List PipelineBarrierCmd),
      TransitionImageLayout cmds CmdBuffer Image AspectMask OldLayout NewLayout SubresRange
        SrcStages DestStages = some l →
      ∃ c b, l = cmds ++ [c] ∧ c.memoryBarrierCount = 0 ∧
        c.bufferMemoryBarrierCount = 0 ∧ c.imageMemoryBarrierCount = 1 ∧
        c.imageMemoryBarriers = [b] ∧ b.oldLayout = OldLayout ∧
        b.newLayout = NewLayout ∧ b.subresourceRange = SubresRange ∧
        b.srcQueueFamilyIndex = VK_QUEUE_FAMILY_IGNORED ∧
        b.dstQueueFamilyIndex = VK_QUEUE_FAMILY_IGNORED := by
  intro cmds cb img am ol nl sr ss ds l h
  unfold TransitionImageLayout at h
  obtain ⟨hcb, b2, b3, ss2, ds2, e1, e2, e3, e4, hl⟩ := TransitionImageLayoutWith_inv h
  obtain ⟨⟨hs1, hp1, ho1, hn1, hq1, hq1d, hi1, hr1⟩, hd1⟩ := applyOldLayoutSwitch_core e1
  obtain ⟨hs2, hp2, ho2, hn2, hq2, hq2d, hi2, hr2⟩ := applyNewLayoutSwitch_core e2
  refine ⟨_, b3, hl, rfl, rfl, rfl, rfl, ?_, ?_, ?_, ?_, ?_⟩
  · rw [ho2, ho1]
    rfl
  · rw [hn2, hn1]
    rfl
  · rw [hr2, hr1]
    rfl
  · rw [hq2, hq1]
    rfl
  · rw [hq2d, hq1d]
    rfl

theorem C5_single_barrier_recorded_witness :
    ∃ c b, [colorToTransferCmd] = ([] : List PipelineBarrierCmd) ++ [c] ∧
      c.memoryBarrierCount = 0 ∧ c.bufferMemoryBarrierCount = 0 ∧
      c.imageMemoryBarrierCount = 1 ∧ c.imageMemoryBarriers = [b] ∧
      b.oldLayout = VK_IMAGE_LAYOUT_COLOR_ATTACHMENT_OPTIMAL ∧
      b.newLayout = VK_IMAGE_LAYOUT_TRANSFER_DST_OPTIMAL ∧
      b.subresourceRange = sampleRange ∧
      b.srcQueueFamilyIndex = VK_QUEUE_FAMILY_IGNORED ∧
      b.dstQueueFamilyIndex = VK_QUEUE_FAMILY_IGNORED :=
  C5_single_barrier_recorded [] 1 1 0 VK_IMAGE_LAYOUT_COLOR_ATTACHMENT_OPTIMAL
    VK_IMAGE_LAYOUT_TRANSFER_DST_OPTIMAL sampleRange 1 1 [colorToTransferCmd] (by decide)

/-- Claim C6: a call to `TransitionImageLayout` with a new layout of
undefined or preinitialized, or with either layout equal to general,
triggers the fatal contract-violation path (`UNEXPECTED`, modelled as an
aborted computation) and records no barrier command. -/
theorem C6_fatal_layouts :
    ∀ (cmds : List PipelineBarrierCmd) (CmdBuffer Image AspectMask OldLayout NewLayout : Nat)
      (SubresRange : VkImageSubresourceRange) (SrcStages DestStages : Nat),
      (NewLayout = VK_IMAGE_LAYOUT_UNDEFINED ∨ NewLayout = VK_IMAGE_LAYOUT_PREINITIALIZED ∨
        OldLayout = VK_IMAGE_LAYOUT_GENERAL ∨ NewLayout = VK_IMAGE_LAYOUT_GENERAL) →
      TransitionImageLayout cmds CmdBuffer Image AspectMask OldLayout NewLayout SubresRange
        SrcStages DestStages = none := by
  intro cmds cb img am ol nl sr ss ds hbad
  cases hres : TransitionImageLayout cmds cb img am ol nl sr ss ds with
  | none => rfl
  | some l =>
    exfalso
    unfold TransitionImageLayout at hres
    obtain ⟨hcb, b2, b3, ss2, ds2, e1, e2, e3, e4, hl⟩ := TransitionImageLayoutWith_inv hres
    rcases hbad with hb | hb | hb | hb
    · subst hb
      exact Option.noConfusion
        (show (none : Option VkImageMemoryBarrier) = some b3 from e2)
    · subst hb
      exact Option.noConfusion
        (show (none : Option VkImageMemoryBarrier) = some b3 from e2)
    · subst hb
      exact Option.noConfusion
        (show (none : Option VkImageMemoryBarrier) = some b2 from e1)
    · subst hb
      exact Option.noConfusion
        (show (none : Option VkImageMemoryBarrier) = some b3 from e2)

theorem C6_fatal_layouts_witness :
    TransitionImageLayout [] 1 1 0 VK_IMAGE_LAYOUT_GENERAL
      VK_IMAGE_LAYOUT_TRANSFER_DST_OPTIMAL sampleRange 1 1 = none :=
  C6_fatal_layouts [] 1 1 0 VK_IMAGE_LAYOUT_GENERAL VK_IMAGE_LAYOUT_TRANSFER_DST_OPTIMAL
    sampleRange 1 1 (Or.inr (Or.inr (Or.inl rfl)))

/-- Claim C7: with old layout shader-read-only-optimal, new layout
transfer-destination-optimal and both stage hints zero, the recorded
barrier has source access exactly the shader-read bit, destination
access exactly the transfer-write bit, source stages exactly all
graphics shader stages united with the compute shader stage, and
destination stages exactly the transfer stage. -/
theorem C7_scenario_A :
    TransitionImageLayout [] 1 1 0 VK_IMAGE_LAYOUT_SHADER_READ_ONLY_OPTIMAL
      VK_IMAGE_LAYOUT_TRANSFER_DST_OPTIMAL sampleRange 0 0 =
      some [{ srcStageMask :=
                ALL_GRAPHICS_SHADER_STAGES_BITS ||| VK_PIPELINE_STAGE_COMPUTE_SHADER_BIT,
              dstStageMask := VK_PIPELINE_STAGE_TRANSFER_BIT, dependencyFlags := 0,
              memoryBarrierCount := 0, bufferMemoryBarrierCount := 0,
              imageMemoryBarrierCount := 1,
              imageMemoryBarriers := [{ sType := VK_STRUCTURE_TYPE_IMAGE_MEMORY_BARRIER,
                                        pNext := 0,
                                        srcAccessMask := VK_ACCESS_SHADER_READ_BIT,
                                        dstAccessMask := VK_ACCESS_TRANSFER_WRITE_BIT,
                                        oldLayout := VK_IMAGE_LAYOUT_SHADER_READ_ONLY_OPTIMAL,
                                        newLayout := VK_IMAGE_LAYOUT_TRANSFER_DST_OPTIMAL,
                                        srcQueueFamilyIndex := VK_QUEUE_FAMILY_IGNORED,
                                        dstQueueFamilyIndex := VK_QUEUE_FAMILY_IGNORED,
                                        image := 1,
                                        subresourceRange := sampleRange }] }] := by
  rw [scenarioA_eval]
  decide

/-- Claim C8: `FlushBarriers` is a no-op: it leaves the recorded command
list unchanged (its body is empty), in particular when no barriers are
pending, and raises no error. -/
theorem C8_flush_noop : ∀ cmds : List PipelineBarrierCmd, FlushBarriers cmds = cmds :=
  fun _ => rfl

/-- Claim C9: two calls to `TransitionImageLayout` that differ only in
the `AspectMask` argument produce identical results: the aspect mask of
the emitted barrier's subresource range is taken entirely from the
`SubresRange` argument, because the source overwrites the whole
subresource range (line 168) after copying the aspect mask (line 167). -/
theorem C9_aspect_mask_unused :
    ∀ (cmds : List PipelineBarrierCmd) (CmdBuffer Image AspectMask1 AspectMask2 : Nat)
      (OldLayout NewLayout : Nat) (SubresRange : VkImageSubresourceRange)
      (SrcStages DestStages : Nat),
      TransitionImageLayout cmds CmdBuffer Image AspectMask1 OldLayout NewLayout
        SubresRange SrcStages DestStages =
      TransitionImageLayout cmds CmdBuffer Image AspectMask2 OldLayout NewLayout
        SubresRange SrcStages DestStages := by
  intro cmds cb img a1 a2 ol nl sr ss ds
  rfl

/-- Claim C10: `PipelineStageFromAccessFlags` terminates for every
32-bit access mask: each iteration clears the lowest set bit, so a loop
budget of 32 iterations always suffices — the fuel-indexed loop with
fuel 32 finishes (returns `some`) and agrees with the loop's result. -/
theorem C10_loop_terminates_within_32 :
    ∀ x : Nat, x < 4294967296 →
      pipelineStageLoopFuel 32 x 0 = some (PipelineStageFromAccessFlags x) := by
  intro x hx
  unfold PipelineStageFromAccessFlags
  refine pipelineStageLoopFuel_adequate 32 x 0 hx ?_
  simp [Nat.mod_one]

theorem C10_loop_terminates_within_32_witness :
    pipelineStageLoopFuel 32 2296 0 = some (PipelineStageFromAccessFlags 2296) :=
  C10_loop_terminates_within_32 2296 (by decide)
